import Mathlib

/-!
Verification of the authentication controller of the eCommerceServer
repository (src/controllers/authController.js), against its
natural-language specification.

The controller is shallowly embedded: the database is a list of user
records, each request handler is a pure function from the database and the
request data to a `HandlerOutput` (a response outcome, the new database,
the ordered list of persistence writes, the cookie effect, and a count of
database reads).  Library collaborators that are not part of the
repository's source (the mongoose user model's hooks and methods, the jwt
library, the sha256 digest, the status-code table, `sendAuthToken` and the
error-to-response translator) are modelled from the specification, each
marked as such in its doc comment.
-/

namespace AuthController

/-- Modelled from the spec: the numeric HTTP status codes imported from
`../config/statusCodes` (not under src/); conventional values per error
kind (§6, §7 of the spec). -/
def STATUS_OK : Nat := 200

/-- Modelled from the spec: see `STATUS_OK`. -/
def STATUS_CREATED : Nat := 201

/-- Modelled from the spec: see `STATUS_OK`. -/
def STATUS_BAD_REQUEST : Nat := 400

/-- Modelled from the spec: see `STATUS_OK`. -/
def STATUS_UNAUTHORIZED : Nat := 401

/-- Modelled from the spec: see `STATUS_OK`. -/
def STATUS_FORBIDDEN : Nat := 403

/-- Modelled from the spec: see `STATUS_OK`. -/
def STATUS_NOT_FOUND : Nat := 404

/-- Modelled from the spec: see `STATUS_OK`. -/
def STATUS_INTERNAL : Nat := 500

/-- Modelled from the spec: the refresh-token signing secret from the
environment (`process.env.JWT_REFRESH_TOKEN_SECRET`). -/
def JWT_REFRESH_TOKEN_SECRET : String := "refresh-secret"

/-- Modelled from the spec: the access-token signing secret from the
environment. -/
def JWT_ACCESS_TOKEN_SECRET : String := "access-secret"

/-- Modelled from the spec: a signed JWT, carrying the user's identifier
as its `id` claim, the secret it was signed with, and whether its
expiration has passed (§4.2, §4.8). -/
structure SignedToken where
  id : Nat
  secret : String
  expired : Bool
deriving DecidableEq, Repr

/-- Modelled from the spec: `jwt.sign` producing a fresh (unexpired)
token carrying the identifier claim. -/
def jwtSign (claimId : Nat) (secret : String) : SignedToken :=
  ⟨claimId, secret, false⟩

/-- Modelled from the spec: `jwt.verify` — succeeds with the decoded
payload iff the token was signed with the given secret and is not
expired; on failure the callback receives an error and an undefined
payload (§4.8). -/
def jwtVerify (t : SignedToken) (secret : String) : Except String SignedToken :=
  if t.secret ≠ secret ∨ t.expired then Except.error "invalid token" else Except.ok t

/-- Modelled from the spec: the one-way fixed-length digest used for reset
tokens (`crypto.createHash(sha256).update(tok).digest(hex)`); an opaque
injective encoding stands in for the real digest. -/
def sha256Hex (s : String) : String := "sha256:" ++ s

/-- Modelled from the spec: the persistence layer's pre-save password
hashing hook on the User model (§4.3) — an opaque injective encoding
stands in for the salted hash. -/
def hashPassword (plain : String) : String := "bcrypt:" ++ plain

/-- The User record (the mongoose model lives outside src/; fields are
modelled from the spec's data model §3): identifier, username, name,
email, stored (hashed) password, nullable refresh token, nullable
reset-token hash, nullable reset expiration timestamp. -/
structure User where
  id : Nat
  username : String
  name : String
  email : String
  password : String
  refreshToken : Option SignedToken
  resetPasswordToken : Option String
  resetPasswordExpiration : Option Nat
deriving DecidableEq, Repr

/-- Modelled from the spec: `user.comparePassword(plain)` — constant-time
salted comparison of the plaintext against the stored hash (§4.1). -/
def comparePassword (u : User) (plain : String) : Bool :=
  u.password == hashPassword plain

/-- Modelled from the spec: `user.signAccessToken()` — a short-lived
access token carrying the user's identifier, signed with the access-token
secret (§4.2). -/
def signAccessToken (u : User) : SignedToken :=
  jwtSign u.id JWT_ACCESS_TOKEN_SECRET

/-- Modelled from the spec: the fixed reset-token validity window
("expiration timestamp (fixed window from now)", §4.5). -/
def RESET_PASSWORD_WINDOW : Nat := 900000

/-- Modelled from the spec: `user.signResetPasswordToken()` — stores the
one-way hash of a freshly generated random token plus an expiration a
fixed window from now on the record and returns the plaintext token
(§4.5).  The fresh random token is passed in as `freshTok`. -/
def signResetPasswordToken (u : User) (freshTok : String) (now : Nat) : User :=
  { u with resetPasswordToken := some (sha256Hex freshTok),
           resetPasswordExpiration := some (now + RESET_PASSWORD_WINDOW) }

/-- The response bodies produced by the controller, as a record of the
fields any of them uses: an optional `success` flag, an optional
`message`, an optional `accessToken`. -/
structure ResponseBody where
  success : Option Bool
  message : Option String
  accessToken : Option SignedToken
deriving DecidableEq, Repr

/-- The outcome of one handler invocation: a JSON response with a status,
a typed error handed to `next(new ErrorHandler(message, status))`, or an
uncaught exception. -/
inductive HandlerResult where
  | ok (status : Nat) (body : ResponseBody)
  | err (message : String) (status : Nat)
  | thrown (message : String)
deriving DecidableEq, Repr

/-- The effect of a handler on the refresh-token cookie. -/
inductive CookieAction where
  | untouched
  | setCookie (t : SignedToken)
  | clearCookie
deriving DecidableEq, Repr

/-- One persistence write (`doc.save(...)`): the document written and
whether full validation ran (`validateBeforeSave`). -/
structure SaveEvent where
  user : User
  validateBeforeSave : Bool
deriving DecidableEq, Repr

/-- What one handler invocation produced: the response outcome, the
database after the request, the ordered saves it performed, the cookie
effect, and how many database reads (findOne/findById) it issued. -/
structure HandlerOutput where
  result : HandlerResult
  db : List User
  saves : List SaveEvent
  cookie : CookieAction
  reads : Nat
deriving DecidableEq, Repr

/-- JavaScript falsiness of an optional string field: absent or empty. -/
def falsyStr (s : Option String) : Bool :=
  match s with
  | none => true
  | some str => str == ""

/-- A mongoose `save`: the single-document write replaces every stored
record bearing the document's identifier. -/
def persist (db : List User) (u : User) : List User :=
  db.map (fun v => if v.id == u.id then u else v)

/-- Modelled from the spec: `sendAuthToken(user, status, res)` from
`../utils/sendAuthToken` (not under src/, §4.2): signs a refresh token
carrying the user's identifier with the refresh-token secret, persists it
on the user record overwriting any prior value, delivers it as the
cookie, and responds with the access token (and the success flag per §6)
in the body. -/
def sendAuthToken (user : User) (status : Nat) (db : List User)
    (reads : Nat) (saves : List SaveEvent) : HandlerOutput :=
  let refreshTok := jwtSign user.id JWT_REFRESH_TOKEN_SECRET
  let user' := { user with refreshToken := some refreshTok }
  { result := HandlerResult.ok status
      ⟨some true, none, some (signAccessToken user')⟩,
    db := persist db user',
    saves := saves ++ [⟨user', true⟩],
    cookie := CookieAction.setCookie refreshTok,
    reads := reads }

/-- Modelled from the spec: the uniform error-to-response translator
(§7): every `ErrorHandler(message, status)` becomes the status plus a
`success: false` body carrying the message. -/
def errorToResponse (message : String) (status : Nat) : Nat × ResponseBody :=
  (status, ⟨some false, some message, none⟩)

/-- `loginHandler` (authController.js lines 24-41): require both fields,
look up by username (selecting the password), compare the password, and
on success issue tokens via `sendAuthToken`. -/
def loginHandler (db : List User) (username password : Option String) :
    HandlerOutput :=
  if falsyStr password || falsyStr username then
    { result := HandlerResult.err "All fields are required" STATUS_BAD_REQUEST,
      db := db, saves := [], cookie := CookieAction.untouched, reads := 0 }
  else
    match db.find? (fun u => u.username == username.getD "") with
    | none =>
      { result := HandlerResult.err "Incorrect credentials" STATUS_UNAUTHORIZED,
        db := db, saves := [], cookie := CookieAction.untouched, reads := 1 }
    | some foundUser =>
      if !(comparePassword foundUser (password.getD "")) then
        { result := HandlerResult.err "Incorrect credentials" STATUS_UNAUTHORIZED,
          db := db, saves := [], cookie := CookieAction.untouched, reads := 1 }
      else
        sendAuthToken foundUser STATUS_OK db 1 []

/-- `registerHandler` (lines 48-62): require all fields, create the user
(the pre-save hook hashes the password; uniqueness of username/email is a
client error, modelled from §4.3), then issue tokens with the created
status. -/
def registerHandler (db : List User)
    (username name email password : Option String) (freshId : Nat) :
    HandlerOutput :=
  if falsyStr username || falsyStr name || falsyStr password || falsyStr email then
    { result := HandlerResult.err "All fields are required" STATUS_BAD_REQUEST,
      db := db, saves := [], cookie := CookieAction.untouched, reads := 0 }
  else if db.any (fun u => u.username == username.getD "" || u.email == email.getD "") then
    { result := HandlerResult.err "Duplicate field value" STATUS_BAD_REQUEST,
      db := db, saves := [], cookie := CookieAction.untouched, reads := 0 }
  else
    let createdUser : User :=
      ⟨freshId, username.getD "", name.getD "", email.getD "",
        hashPassword (password.getD ""), none, none, none⟩
    sendAuthToken createdUser STATUS_CREATED (db ++ [createdUser]) 0
      [⟨createdUser, true⟩]

/-- `logoutHandler` (lines 69-90): missing cookie is a bad request;
otherwise look up the user holding the cookie's refresh token, clear the
stored token and save without validation when found (no-op otherwise),
always clear the cookie and respond with success. -/
def logoutHandler (db : List User) (cookieJwt : Option SignedToken) :
    HandlerOutput :=
  match cookieJwt with
  | none =>
    { result := HandlerResult.err "You are already logged out" STATUS_BAD_REQUEST,
      db := db, saves := [], cookie := CookieAction.untouched, reads := 0 }
  | some refreshToken =>
    match db.find? (fun u => u.refreshToken == some refreshToken) with
    | some foundUser =>
      let u' := { foundUser with refreshToken := none }
      { result := HandlerResult.ok STATUS_OK
          ⟨some true, some "You have been logged out", none⟩,
        db := persist db u', saves := [⟨u', false⟩],
        cookie := CookieAction.clearCookie, reads := 1 }
    | none =>
      { result := HandlerResult.ok STATUS_OK
          ⟨some true, some "You have been logged out", none⟩,
        db := db, saves := [],
        cookie := CookieAction.clearCookie, reads := 1 }

/-- `forgotPassword` (lines 97-133): require the email, look up the user
(not-found is an error), store the reset-token hash and expiration and
save without validation, then attempt the email; on send failure roll
both reset fields back to absent, persist the rollback, and fail with an
internal error.  `emailOk` is whether `sendEmail` succeeds; `freshTok` is
the random token `signResetPasswordToken` generates. -/
def forgotPassword (db : List User) (email : Option String) (now : Nat)
    (freshTok : String) (emailOk : Bool) : HandlerOutput :=
  if falsyStr email then
    { result := HandlerResult.err "Email is required" STATUS_BAD_REQUEST,
      db := db, saves := [], cookie := CookieAction.untouched, reads := 0 }
  else
    match db.find? (fun u => u.email == email.getD "") with
    | none =>
      { result := HandlerResult.err
          ("User with email (" ++ email.getD "" ++ ") was not found")
          STATUS_NOT_FOUND,
        db := db, saves := [], cookie := CookieAction.untouched, reads := 1 }
    | some foundUser =>
      let u1 := signResetPasswordToken foundUser freshTok now
      let db1 := persist db u1
      if emailOk then
        { result := HandlerResult.ok STATUS_OK
            ⟨some true, some ("Recovery link sent to: " ++ u1.email), none⟩,
          db := db1, saves := [⟨u1, false⟩],
          cookie := CookieAction.untouched, reads := 1 }
      else
        let u2 := { u1 with resetPasswordToken := none,
                            resetPasswordExpiration := none }
        { result := HandlerResult.err
            ("Cannot send email to (" ++ email.getD "" ++ ")") STATUS_INTERNAL,
          db := persist db1 u2, saves := [⟨u1, false⟩, ⟨u2, false⟩],
          cookie := CookieAction.untouched, reads := 1 }

/-- The lookup predicate of `resetPassword` (lines 156-159): stored
reset-token hash equals the digest of the submitted token AND the stored
expiration is strictly greater than now (a missing expiration never
matches the `$gt` query). -/
def resetMatch (hashedTok : String) (now : Nat) (u : User) : Bool :=
  u.resetPasswordToken == some hashedTok && now < u.resetPasswordExpiration.getD 0

/-- `resetPassword` (lines 140-170): require the path token and the body
password, digest the token, look up a user matching hash and unexpired
window (no match is one forbidden error), then set the new password
(re-hashed by the pre-save hook), clear both reset fields, save with full
validation and issue tokens. -/
def resetPassword (db : List User) (token password : Option String)
    (now : Nat) : HandlerOutput :=
  if falsyStr token then
    { result := HandlerResult.err "Reset token is required" STATUS_BAD_REQUEST,
      db := db, saves := [], cookie := CookieAction.untouched, reads := 0 }
  else if falsyStr password then
    { result := HandlerResult.err "Password is required" STATUS_BAD_REQUEST,
      db := db, saves := [], cookie := CookieAction.untouched, reads := 0 }
  else
    let hashed := sha256Hex (token.getD "")
    match db.find? (resetMatch hashed now) with
    | none =>
      { result := HandlerResult.err "Reset token has been expired" STATUS_FORBIDDEN,
        db := db, saves := [], cookie := CookieAction.untouched, reads := 1 }
    | some foundUser =>
      let u1 := { foundUser with password := hashPassword (password.getD ""),
                                 resetPasswordToken := none,
                                 resetPasswordExpiration := none }
      sendAuthToken u1 STATUS_OK (persist db u1) 1 [⟨u1, true⟩]

/-- `updatePassword` (lines 177-201): require both fields, reject equal
current/new passwords, look up the authenticated user's record by id —
the result is dereferenced with no null check, so a missing record throws
— re-verify the current password, then set and persist the new one. -/
def updatePassword (db : List User) (reqUserId : Nat)
    (password newPassword : Option String) : HandlerOutput :=
  if falsyStr password || falsyStr newPassword then
    { result := HandlerResult.err "All fields are required" STATUS_BAD_REQUEST,
      db := db, saves := [], cookie := CookieAction.untouched, reads := 0 }
  else if password == newPassword then
    { result := HandlerResult.err "Cannot use same password" STATUS_BAD_REQUEST,
      db := db, saves := [], cookie := CookieAction.untouched, reads := 0 }
  else
    match db.find? (fun u => u.id == reqUserId) with
    | none =>
      { result := HandlerResult.thrown
          "TypeError: reading comparePassword of null",
        db := db, saves := [], cookie := CookieAction.untouched, reads := 1 }
    | some foundUser =>
      if !(comparePassword foundUser (password.getD "")) then
        { result := HandlerResult.err "Incorrect password" STATUS_FORBIDDEN,
          db := db, saves := [], cookie := CookieAction.untouched, reads := 1 }
      else
        let u1 := { foundUser with password := hashPassword (newPassword.getD "") }
        { result := HandlerResult.ok STATUS_OK
            ⟨some true, some "Password has been updated", none⟩,
          db := persist db u1, saves := [⟨u1, true⟩],
          cookie := CookieAction.untouched, reads := 1 }

/-- `getNewAccessToken` (lines 208-230): missing cookie is unauthorized;
no user storing the cookie's refresh token is forbidden; then
`jwt.verify` runs its callback, whose body reads `decoded.id` BEFORE the
`if (err || ...)` check — when verification fails the payload is
undefined and the handler throws; a verified token whose id claim differs
from the found user's id is the same forbidden error; otherwise a new
access token is returned in the body (with no success flag). -/
def getNewAccessToken (db : List User) (cookieJwt : Option SignedToken) :
    HandlerOutput :=
  match cookieJwt with
  | none =>
    { result := HandlerResult.err "Unauthorized" STATUS_UNAUTHORIZED,
      db := db, saves := [], cookie := CookieAction.untouched, reads := 0 }
  | some refreshToken =>
    match db.find? (fun u => u.refreshToken == some refreshToken) with
    | none =>
      { result := HandlerResult.err "Access expired" STATUS_FORBIDDEN,
        db := db, saves := [], cookie := CookieAction.untouched, reads := 1 }
    | some foundUser =>
      match jwtVerify refreshToken JWT_REFRESH_TOKEN_SECRET with
      | Except.error _ =>
        { result := HandlerResult.thrown "TypeError: reading id of undefined",
          db := db, saves := [], cookie := CookieAction.untouched, reads := 1 }
      | Except.ok decoded =>
        if foundUser.id != decoded.id then
          { result := HandlerResult.err "Access expired" STATUS_FORBIDDEN,
            db := db, saves := [], cookie := CookieAction.untouched, reads := 1 }
        else
          { result := HandlerResult.ok STATUS_OK
              ⟨none, none, some (signAccessToken foundUser)⟩,
            db := db, saves := [], cookie := CookieAction.untouched, reads := 1 }

/-! ## Theorems -/

/-- A refresh token stored on a user record that no longer verifies:
signed with the right secret but past its expiration. -/
def expiredRefreshToken : SignedToken := ⟨1, JWT_REFRESH_TOKEN_SECRET, true⟩

/-- A user still storing `expiredRefreshToken` as their refresh token. -/
def refreshCrashUser : User :=
  ⟨1, "alice", "Alice", "a@x.com", hashPassword "pw1",
    some expiredRefreshToken, none, none⟩

/-- C1: the claim says every refresh request whose cookie token matches a
stored refresh token but fails cryptographic verification fails with the
same forbidden error and never with an uncaught exception.  The code
reads `decoded.id` before the `if (err || ...)` check, and the decoded
payload is undefined whenever verification fails, so the handler throws
instead: evaluated here on a user whose stored refresh token has expired. -/
theorem getNewAccessToken_crashes_when_verification_fails :
    (getNewAccessToken [refreshCrashUser] (some expiredRefreshToken)).result =
      HandlerResult.thrown "TypeError: reading id of undefined" := by
  decide

/-- A refresh token that verifies: right secret, not expired. -/
def validRefreshToken : SignedToken := ⟨2, JWT_REFRESH_TOKEN_SECRET, false⟩

/-- A user storing `validRefreshToken` as their refresh token. -/
def refreshOkUser : User :=
  ⟨2, "bob", "Bob", "b@x.com", hashPassword "pw2",
    some validRefreshToken, none, none⟩

/-- C5 counterexample: the successful refresh response body is the access
token alone — its `success` field is absent, so it does not have the
shape `(success: true, ...payload)` the claim asserts for every success
response of the module. -/
theorem refresh_success_body_has_no_success_flag :
    (getNewAccessToken [refreshOkUser] (some validRefreshToken)).result =
      HandlerResult.ok STATUS_OK ⟨none, none, some (signAccessToken refreshOkUser)⟩ ∧
    (⟨none, none, some (signAccessToken refreshOkUser)⟩ : ResponseBody).success ≠
      some true := by
  constructor
  · decide
  · decide

/-- C5 (amended): every success response of login, register, logout,
forgot-password, reset-password and update-password carries
`success: true`, and the uniform translator renders every typed error as
`(success: false, message)` — but the refresh endpoint's success body is
the access token alone, with no `success` flag. -/
theorem response_body_shapes :
    (∀ db un pw s b, (loginHandler db un pw).result = HandlerResult.ok s b →
      b.success = some true) ∧
    (∀ db un nm em pw fid,
      ∀ s b, (registerHandler db un nm em pw fid).result = HandlerResult.ok s b →
      b.success = some true) ∧
    (∀ db c s b, (logoutHandler db c).result = HandlerResult.ok s b →
      b.success = some true) ∧
    (∀ db em now tok eok,
      ∀ s b, (forgotPassword db em now tok eok).result = HandlerResult.ok s b →
      b.success = some true) ∧
    (∀ db t p now s b, (resetPassword db t p now).result = HandlerResult.ok s b →
      b.success = some true) ∧
    (∀ db uid p np s b, (updatePassword db uid p np).result = HandlerResult.ok s b →
      b.success = some true) ∧
    (∀ db c s b, (getNewAccessToken db c).result = HandlerResult.ok s b →
      b.success = none ∧ b.accessToken.isSome = true) ∧
    (∀ msg st, errorToResponse msg st = (st, ⟨some false, some msg, none⟩)) := by
  refine ⟨?_, ?_, ?_, ?_, ?_, ?_, ?_, ?_⟩
  · intro db un pw s b h
    unfold loginHandler sendAuthToken at h
    split at h
    · simp at h
    · split at h
      · simp at h
      · split at h
        · simp at h
        · injection h with h1 h2
          rw [← h2]
  · intro db un nm em pw fid s b h
    unfold registerHandler sendAuthToken at h
    split at h
    · simp at h
    · split at h
      · simp at h
      · injection h with h1 h2
        rw [← h2]
  · intro db c s b h
    unfold logoutHandler at h
    split at h
    · simp at h
    · split at h
      · injection h with h1 h2
        rw [← h2]
      · injection h with h1 h2
        rw [← h2]
  · intro db em now tok eok s b h
    unfold forgotPassword at h
    split at h
    · simp at h
    · split at h
      · simp at h
      · split at h
        · injection h with h1 h2
          rw [← h2]
        · simp at h
  · intro db t p now s b h
    unfold resetPassword sendAuthToken at h
    split at h
    · simp at h
    · split at h
      · simp at h
      · dsimp only at h
        split at h
        · simp at h
        · injection h with h1 h2
          rw [← h2]
  · intro db uid p np s b h
    unfold updatePassword at h
    split at h
    · simp at h
    · split at h
      · simp at h
      · split at h
        · simp at h
        · split at h
          · simp at h
          · injection h with h1 h2
            rw [← h2]
  · intro db c s b h
    unfold getNewAccessToken at h
    split at h
    · simp at h
    · split at h
      · simp at h
      · split at h
        · simp at h
        · split at h
          · simp at h
          · injection h with h1 h2
            rw [← h2]
            exact ⟨rfl, rfl⟩
  · intro msg st
    rfl

/-- Witness for `response_body_shapes`: the logout and refresh conjuncts
applied at concrete inputs, their hypotheses discharged by evaluation. -/
theorem response_body_shapes_witness :
    (⟨some true, some "You have been logged out", none⟩ : ResponseBody).success =
      some true ∧
    ((⟨none, none, some (signAccessToken refreshOkUser)⟩ : ResponseBody).success =
        none ∧
      (⟨none, none, some (signAccessToken refreshOkUser)⟩ :
          ResponseBody).accessToken.isSome = true) :=
  ⟨response_body_shapes.2.2.1 [] (some validRefreshToken) STATUS_OK
      ⟨some true, some "You have been logged out", none⟩ (by decide),
    response_body_shapes.2.2.2.2.2.2.1 [refreshOkUser] (some validRefreshToken)
      STATUS_OK ⟨none, none, some (signAccessToken refreshOkUser)⟩ (by decide)⟩

/-- Every record of `persist db u` is either the written document `u` or a
record of `db` whose identifier differs from `u`'s. -/
theorem mem_persist (db : List User) (u v : User) (hv : v ∈ persist db u) :
    v = u ∨ (v ∈ db ∧ ¬v.id = u.id) := by
  rcases List.mem_map.1 hv with ⟨w, hw, rfl⟩
  by_cases h : w.id = u.id
  · simp [h]
  · have hb : (w.id == u.id) = false := by simp [h]
    simp only [hb, Bool.false_eq_true, if_false]
    exact Or.inr ⟨hw, h⟩

/-- C10: when both password fields are present and distinct but no user
record exists for the authenticated identity, `updatePassword`
dereferences the null lookup result and throws, rather than failing with
a typed error. -/
theorem updatePassword_throws_when_user_record_missing
    (db : List User) (uid : Nat) (p np : String)
    (hp : p ≠ "") (hnp : np ≠ "") (hne : p ≠ np)
    (hnone : db.find? (fun u => u.id == uid) = none) :
    (updatePassword db uid (some p) (some np)).result =
      HandlerResult.thrown "TypeError: reading comparePassword of null" := by
  unfold updatePassword
  simp only [falsyStr, Option.getD_some, hnone]
  have h1 : (p == "") = false := by simp [hp]
  have h2 : (np == "") = false := by simp [hnp]
  have h3 : (some p == some np) = false := by simp [hne]
  simp [h1, h2, h3]

/-- Witness for `updatePassword_throws_when_user_record_missing` at a
concrete empty database. -/
theorem updatePassword_throws_witness :
    (updatePassword [] 7 (some "old") (some "new")).result =
      HandlerResult.thrown "TypeError: reading comparePassword of null" :=
  updatePassword_throws_when_user_record_missing [] 7 "old" "new"
    (by decide) (by decide) (by decide) (by decide)

/-- C4: a login naming an unknown username and a login naming an existing
user with a failing password comparison produce identical failure
results: the same message and the same unauthorized status. -/
theorem login_failures_indistinguishable
    (db1 db2 : List User) (un1 pw1 un2 pw2 : String)
    (hu1 : un1 ≠ "") (hp1 : pw1 ≠ "") (hu2 : un2 ≠ "") (hp2 : pw2 ≠ "")
    (hA : db1.find? (fun u => u.username == un1) = none)
    (u : User) (hB : db2.find? (fun u => u.username == un2) = some u)
    (hpw : comparePassword u pw2 = false) :
    (loginHandler db1 (some un1) (some pw1)).result =
      HandlerResult.err "Incorrect credentials" STATUS_UNAUTHORIZED ∧
    (loginHandler db2 (some un2) (some pw2)).result =
      HandlerResult.err "Incorrect credentials" STATUS_UNAUTHORIZED := by
  constructor
  · unfold loginHandler
    simp only [falsyStr, Option.getD_some, hA]
    have h1 : (pw1 == "") = false := by simp [hp1]
    have h2 : (un1 == "") = false := by simp [hu1]
    simp [h1, h2]
  · unfold loginHandler
    simp only [falsyStr, Option.getD_some, hB]
    have h1 : (pw2 == "") = false := by simp [hp2]
    have h2 : (un2 == "") = false := by simp [hu2]
    simp [h1, h2, hpw]

/-- Witness for `login_failures_indistinguishable`: an empty database
(unknown user) versus a one-user database with the wrong password. -/
theorem login_failures_indistinguishable_witness :
    (loginHandler [] (some "alice") (some "pw1")).result =
      HandlerResult.err "Incorrect credentials" STATUS_UNAUTHORIZED ∧
    (loginHandler [⟨1, "bob", "Bob", "b@x.com", hashPassword "right", none, none,
        none⟩] (some "bob") (some "wrong")).result =
      HandlerResult.err "Incorrect credentials" STATUS_UNAUTHORIZED :=
  login_failures_indistinguishable []
    [⟨1, "bob", "Bob", "b@x.com", hashPassword "right", none, none, none⟩]
    "alice" "pw1" "bob" "wrong" (by decide) (by decide) (by decide) (by decide)
    (by decide) ⟨1, "bob", "Bob", "b@x.com", hashPassword "right", none, none, none⟩
    (by decide) (by decide)

/-- C8: a reset-password request whose token digest matches no stored
hash at all, and one whose token digest matches a stored hash whose
expiration is not in the future, fail with one and the same forbidden
error. -/
theorem reset_failures_indistinguishable
    (db1 db2 : List User) (t1 pw1 t2 pw2 : String) (now1 now2 : Nat)
    (ht1 : t1 ≠ "") (hp1 : pw1 ≠ "") (ht2 : t2 ≠ "") (hp2 : pw2 ≠ "")
    (hwrong : ∀ v ∈ db1, ¬v.resetPasswordToken = some (sha256Hex t1))
    (hexpired : ∀ v ∈ db2, v.resetPasswordToken = some (sha256Hex t2) →
      v.resetPasswordExpiration.getD 0 ≤ now2) :
    (resetPassword db1 (some t1) (some pw1) now1).result =
      HandlerResult.err "Reset token has been expired" STATUS_FORBIDDEN ∧
    (resetPassword db2 (some t2) (some pw2) now2).result =
      HandlerResult.err "Reset token has been expired" STATUS_FORBIDDEN := by
  have hfind1 : db1.find? (resetMatch (sha256Hex t1) now1) = none := by
    rw [List.find?_eq_none]
    intro v hv
    simp only [resetMatch, Bool.and_eq_true, beq_iff_eq, not_and]
    intro hc
    exact absurd hc (hwrong v hv)
  have hfind2 : db2.find? (resetMatch (sha256Hex t2) now2) = none := by
    rw [List.find?_eq_none]
    intro v hv
    simp only [resetMatch, Bool.and_eq_true, beq_iff_eq, not_and,
      decide_eq_true_eq]
    intro hc
    have := hexpired v hv hc
    omega
  constructor
  · unfold resetPassword
    have h1 : (t1 == "") = false := by simp [ht1]
    have h2 : (pw1 == "") = false := by simp [hp1]
    simp [falsyStr, h1, h2, hfind1]
  · unfold resetPassword
    have h1 : (t2 == "") = false := by simp [ht2]
    have h2 : (pw2 == "") = false := by simp [hp2]
    simp [falsyStr, h1, h2, hfind2]

/-- Witness for `reset_failures_indistinguishable`: a database storing no
reset hash versus one storing the digest of the submitted token with an
expiration at time 5 queried at time 10. -/
theorem reset_failures_indistinguishable_witness :
    (resetPassword [⟨1, "a", "A", "a@x.com", hashPassword "p", none, none,
        none⟩] (some "tokA") (some "new1") 0).result =
      HandlerResult.err "Reset token has been expired" STATUS_FORBIDDEN ∧
    (resetPassword [⟨2, "b", "B", "b@x.com", hashPassword "q", none,
        some (sha256Hex "tokB"), some 5⟩] (some "tokB") (some "new2") 10).result =
      HandlerResult.err "Reset token has been expired" STATUS_FORBIDDEN :=
  reset_failures_indistinguishable
    [⟨1, "a", "A", "a@x.com", hashPassword "p", none, none, none⟩]
    [⟨2, "b", "B", "b@x.com", hashPassword "q", none, some (sha256Hex "tokB"),
      some 5⟩]
    "tokA" "new1" "tokB" "new2" 0 10 (by decide) (by decide) (by decide)
    (by decide) (by decide) (by decide)

/-- C6: whenever a refresh request succeeds, its only effect is the new
access token in the response body: the database is unchanged (so no
user's refreshToken field is written), no save is performed, and the
cookie is neither set nor cleared. -/
theorem refresh_success_frame
    (db : List User) (rt : SignedToken) (s : Nat) (b : ResponseBody)
    (h : (getNewAccessToken db (some rt)).result = HandlerResult.ok s b) :
    ∃ u, db.find? (fun v => v.refreshToken == some rt) = some u ∧
      getNewAccessToken db (some rt) =
        ⟨HandlerResult.ok STATUS_OK ⟨none, none, some (signAccessToken u)⟩,
          db, [], CookieAction.untouched, 1⟩ := by
  cases hc : db.find? (fun v => v.refreshToken == some rt) with
  | none => simp [getNewAccessToken, hc] at h
  | some u =>
    cases hv : jwtVerify rt JWT_REFRESH_TOKEN_SECRET with
    | error e => simp [getNewAccessToken, hc, hv] at h
    | ok d =>
      by_cases hid : (u.id != d.id) = true
      · simp [getNewAccessToken, hc, hv, hid] at h
      · refine ⟨u, rfl, ?_⟩
        simp [getNewAccessToken, hc, hv, hid]

/-- Witness for `refresh_success_frame` on a one-user database holding a
valid refresh token. -/
theorem refresh_success_frame_witness :
    ∃ u, List.find? (fun v => v.refreshToken == some validRefreshToken)
        [refreshOkUser] = some u ∧
      getNewAccessToken [refreshOkUser] (some validRefreshToken) =
        ⟨HandlerResult.ok STATUS_OK ⟨none, none, some (signAccessToken u)⟩,
          [refreshOkUser], [], CookieAction.untouched, 1⟩ :=
  refresh_success_frame [refreshOkUser] validRefreshToken STATUS_OK
    ⟨none, none, some (signAccessToken refreshOkUser)⟩ (by decide)

/-- C7: every logout request with the refresh-token cookie present clears
the cookie and responds with the success body; when a user storing that
refresh token exists, that user's refreshToken field is cleared and
persisted with `validateBeforeSave: false`; when none exists, no record
is modified and nothing is saved. -/
theorem logout_behavior (db : List User) (rt : SignedToken) :
    (logoutHandler db (some rt)).cookie = CookieAction.clearCookie ∧
    (logoutHandler db (some rt)).result =
      HandlerResult.ok STATUS_OK
        ⟨some true, some "You have been logged out", none⟩ ∧
    (∀ u0, db.find? (fun u => u.refreshToken == some rt) = some u0 →
      (logoutHandler db (some rt)).saves =
        [⟨{ u0 with refreshToken := none }, false⟩] ∧
      ∀ v ∈ (logoutHandler db (some rt)).db, v.id = u0.id →
        v.refreshToken = none) ∧
    (db.find? (fun u => u.refreshToken == some rt) = none →
      (logoutHandler db (some rt)).db = db ∧
      (logoutHandler db (some rt)).saves = []) := by
  cases hfind : db.find? (fun u => u.refreshToken == some rt) with
  | none =>
    refine ⟨by simp [logoutHandler, hfind], by simp [logoutHandler, hfind],
      ?_, ?_⟩
    · intro u0 hu0
      exact Option.noConfusion hu0
    · intro _
      exact ⟨by simp [logoutHandler, hfind], by simp [logoutHandler, hfind]⟩
  | some u0 =>
    refine ⟨by simp [logoutHandler, hfind], by simp [logoutHandler, hfind],
      ?_, ?_⟩
    · intro u1 hu1
      injection hu1 with hu1
      subst hu1
      constructor
      · simp [logoutHandler, hfind]
      · intro v hv hid
        have hv2 : v ∈ persist db { u0 with refreshToken := none } := by
          simpa [logoutHandler, hfind] using hv
        rcases mem_persist _ _ _ hv2 with h2 | ⟨-, hne2⟩
        · subst h2
          rfl
        · exact absurd hid hne2
    · intro hcontra
      exact Option.noConfusion hcontra

/-- Witness for `logout_behavior` at a concrete database and cookie,
discharging the found-user hypothesis by evaluation. -/
theorem logout_behavior_witness :
    (logoutHandler [refreshOkUser] (some validRefreshToken)).cookie =
      CookieAction.clearCookie ∧
    (logoutHandler [refreshOkUser] (some validRefreshToken)).saves =
      [⟨{ refreshOkUser with refreshToken := none }, false⟩] ∧
    ∀ v ∈ (logoutHandler [refreshOkUser] (some validRefreshToken)).db,
      v.id = refreshOkUser.id → v.refreshToken = none :=
  ⟨(logout_behavior [refreshOkUser] validRefreshToken).1,
    (logout_behavior [refreshOkUser] validRefreshToken).2.2.1 refreshOkUser
      (by decide)⟩

/-- C2: when the user is found, the reset token has been stored, and the
email send fails, the handler fails with the internal error, the rollback
(both reset fields back to absent) is persisted — the first save stores
the token, the second save is the rollback — and no user record bearing
the found user's identifier retains either reset field. -/
theorem forgotPassword_rollback_on_email_failure
    (db : List User) (email : String) (now : Nat) (tok : String) (u0 : User)
    (hne : email ≠ "")
    (hfind : db.find? (fun u => u.email == email) = some u0) :
    (forgotPassword db (some email) now tok false).result =
      HandlerResult.err ("Cannot send email to (" ++ email ++ ")")
        STATUS_INTERNAL ∧
    (forgotPassword db (some email) now tok false).saves =
      [⟨signResetPasswordToken u0 tok now, false⟩,
        ⟨{ u0 with resetPasswordToken := none,
                   resetPasswordExpiration := none }, false⟩] ∧
    ∀ v ∈ (forgotPassword db (some email) now tok false).db, v.id = u0.id →
      v.resetPasswordToken = none ∧ v.resetPasswordExpiration = none := by
  have hmail : (email == "") = false := by simp [hne]
  refine ⟨by simp [forgotPassword, falsyStr, hmail, hfind],
    by simp [forgotPassword, falsyStr, hmail, hfind, signResetPasswordToken],
    ?_⟩
  intro v hv hid
  have hv2 : v ∈ persist (persist db (signResetPasswordToken u0 tok now))
      { (signResetPasswordToken u0 tok now) with
          resetPasswordToken := none,
          resetPasswordExpiration := none } := by
    simpa [forgotPassword, falsyStr, hmail, hfind] using hv
  rcases mem_persist _ _ _ hv2 with h2 | ⟨-, hne2⟩
  · subst h2
    exact ⟨rfl, rfl⟩
  · exact absurd hid hne2

/-- Witness for `forgotPassword_rollback_on_email_failure` on a one-user
database. -/
theorem forgotPassword_rollback_witness :
    (forgotPassword [refreshOkUser] (some "b@x.com") 3 "tok" false).result =
      HandlerResult.err ("Cannot send email to (" ++ "b@x.com" ++ ")")
        STATUS_INTERNAL ∧
    (forgotPassword [refreshOkUser] (some "b@x.com") 3 "tok" false).saves =
      [⟨signResetPasswordToken refreshOkUser "tok" 3, false⟩,
        ⟨{ refreshOkUser with
            resetPasswordToken := none,
            resetPasswordExpiration := none }, false⟩] ∧
    ∀ v ∈ (forgotPassword [refreshOkUser] (some "b@x.com") 3 "tok" false).db,
      v.id = refreshOkUser.id →
      v.resetPasswordToken = none ∧ v.resetPasswordExpiration = none :=
  forgotPassword_rollback_on_email_failure [refreshOkUser] "b@x.com" 3 "tok"
    refreshOkUser (by decide) (by decide)

/-- C3: if a reset-password request with token `t` succeeds on a database
where only records with the matching user's identifier store `t`'s
digest, then a second reset-password request against the resulting
database presenting the same token fails with the forbidden/expired
error: a reset token is never accepted twice. -/
theorem resetToken_single_use
    (db : List User) (t pw pw2 : String) (now now2 : Nat) (u0 : User)
    (ht : t ≠ "") (hpw : pw ≠ "") (hpw2 : pw2 ≠ "")
    (hfind : db.find? (resetMatch (sha256Hex t) now) = some u0)
    (huniq : ∀ v ∈ db, v.resetPasswordToken = some (sha256Hex t) →
      v.id = u0.id) :
    (∃ b, (resetPassword db (some t) (some pw) now).result =
      HandlerResult.ok STATUS_OK b) ∧
    (resetPassword (resetPassword db (some t) (some pw) now).db (some t)
        (some pw2) now2).result =
      HandlerResult.err "Reset token has been expired" STATUS_FORBIDDEN := by
  have htf : (t == "") = false := by simp [ht]
  have hpf : (pw == "") = false := by simp [hpw]
  have hp2f : (pw2 == "") = false := by simp [hpw2]
  have hu0mem : u0 ∈ db := List.mem_of_find?_eq_some hfind
  constructor
  · refine ⟨⟨some true, none, some (signAccessToken
        { u0 with
            password := hashPassword pw,
            resetPasswordToken := none,
            resetPasswordExpiration := none,
            refreshToken := some (jwtSign u0.id JWT_REFRESH_TOKEN_SECRET) })⟩, ?_⟩
    simp [resetPassword, sendAuthToken, falsyStr, htf, hpf, hfind]
  · have hdb : (resetPassword db (some t) (some pw) now).db =
        persist (persist db
          { u0 with
              password := hashPassword pw,
              resetPasswordToken := none,
              resetPasswordExpiration := none })
          { u0 with
              password := hashPassword pw,
              resetPasswordToken := none,
              resetPasswordExpiration := none,
              refreshToken := some (jwtSign u0.id JWT_REFRESH_TOKEN_SECRET) } := by
      simp [resetPassword, sendAuthToken, falsyStr, htf, hpf, hfind]
    have hnone : ((resetPassword db (some t) (some pw) now).db).find?
        (resetMatch (sha256Hex t) now2) = none := by
      rw [hdb, List.find?_eq_none]
      intro v hv
      rcases mem_persist _ _ _ hv with h2 | ⟨hv1, -⟩
      · subst h2
        simp [resetMatch]
      · rcases mem_persist _ _ _ hv1 with h3 | ⟨hv2, hne3⟩
        · subst h3
          simp [resetMatch]
        · simp only [resetMatch, Bool.and_eq_true, beq_iff_eq, not_and]
          intro hc
          exact absurd (huniq v hv2 hc) hne3
    have hkey : ∀ d : List User,
        d.find? (resetMatch (sha256Hex t) now2) = none →
        (resetPassword d (some t) (some pw2) now2).result =
          HandlerResult.err "Reset token has been expired" STATUS_FORBIDDEN := by
      intro d hd
      simp [resetPassword, falsyStr, htf, hp2f, hd]
    exact hkey _ hnone

/-- A user holding a stored, unexpired reset-token digest for the token
string tokB, used to witness the single-use property. -/
def resetReadyUser : User :=
  ⟨3, "carol", "Carol", "c@x.com", hashPassword "pw3", none,
    some (sha256Hex "tokB"), some 100⟩

/-- Witness for `resetToken_single_use` on a one-user database holding an
unexpired digest of the submitted token. -/
theorem resetToken_single_use_witness :
    (∃ b, (resetPassword [resetReadyUser] (some "tokB") (some "new1") 0).result =
      HandlerResult.ok STATUS_OK b) ∧
    (resetPassword (resetPassword [resetReadyUser] (some "tokB") (some "new1")
        0).db (some "tokB") (some "new2") 50).result =
      HandlerResult.err "Reset token has been expired" STATUS_FORBIDDEN :=
  resetToken_single_use [resetReadyUser] "tokB" "new1" "new2" 0 50
    resetReadyUser (by decide) (by decide) (by decide) (by decide) (by decide)

/-- C9: update-password with a missing field fails bad-request before any
database access (zero reads, no saves, database unchanged); with equal
present fields it likewise fails bad-request before any database access;
with both fields present and distinct but a failing current-password
comparison it fails with the incorrect-password forbidden error leaving
the database unchanged; and only when the comparison succeeds is the new
password set (re-hashed) and persisted. -/
theorem updatePassword_cases :
    (∀ db uid p np, (falsyStr p || falsyStr np) = true →
      updatePassword db uid p np =
        ⟨HandlerResult.err "All fields are required" STATUS_BAD_REQUEST, db,
          [], CookieAction.untouched, 0⟩) ∧
    (∀ db uid p, falsyStr p = false →
      updatePassword db uid p p =
        ⟨HandlerResult.err "Cannot use same password" STATUS_BAD_REQUEST, db,
          [], CookieAction.untouched, 0⟩) ∧
    (∀ db uid p np u0, falsyStr p = false → falsyStr np = false → ¬p = np →
      db.find? (fun u => u.id == uid) = some u0 →
      comparePassword u0 (p.getD "") = false →
      updatePassword db uid p np =
        ⟨HandlerResult.err "Incorrect password" STATUS_FORBIDDEN, db, [],
          CookieAction.untouched, 1⟩) ∧
    (∀ db uid p np u0, falsyStr p = false → falsyStr np = false → ¬p = np →
      db.find? (fun u => u.id == uid) = some u0 →
      comparePassword u0 (p.getD "") = true →
      updatePassword db uid p np =
        ⟨HandlerResult.ok STATUS_OK
            ⟨some true, some "Password has been updated", none⟩,
          persist db { u0 with password := hashPassword (np.getD "") },
          [⟨{ u0 with password := hashPassword (np.getD "") }, true⟩],
          CookieAction.untouched, 1⟩) := by
  refine ⟨?_, ?_, ?_, ?_⟩
  · intro db uid p np h
    simp [updatePassword, h]
  · intro db uid p h
    simp [updatePassword, h]
  · intro db uid p np u0 hp hnp hne hfind hcmp
    have hne2 : (p == np) = false := by simp [hne]
    simp [updatePassword, hp, hnp, hne2, hfind, hcmp]
  · intro db uid p np u0 hp hnp hne hfind hcmp
    have hne2 : (p == np) = false := by simp [hne]
    simp [updatePassword, hp, hnp, hne2, hfind, hcmp]

/-- The stored user record used to witness `updatePassword_cases`. -/
def updateWitUser : User :=
  ⟨9, "dave", "Dave", "d@x.com", hashPassword "old", none, none, none⟩

/-- Witness for `updatePassword_cases`: all four conjuncts applied at
concrete inputs, every hypothesis discharged by evaluation. -/
theorem updatePassword_cases_witness :
    (updatePassword [updateWitUser] 9 none (some "new") =
      ⟨HandlerResult.err "All fields are required" STATUS_BAD_REQUEST,
        [updateWitUser], [], CookieAction.untouched, 0⟩) ∧
    (updatePassword [updateWitUser] 9 (some "old") (some "old") =
      ⟨HandlerResult.err "Cannot use same password" STATUS_BAD_REQUEST,
        [updateWitUser], [], CookieAction.untouched, 0⟩) ∧
    (updatePassword [updateWitUser] 9 (some "bad") (some "new") =
      ⟨HandlerResult.err "Incorrect password" STATUS_FORBIDDEN,
        [updateWitUser], [], CookieAction.untouched, 1⟩) ∧
    (updatePassword [updateWitUser] 9 (some "old") (some "new") =
      ⟨HandlerResult.ok STATUS_OK
          ⟨some true, some "Password has been updated", none⟩,
        persist [updateWitUser]
          { updateWitUser with password := hashPassword "new" },
        [⟨{ updateWitUser with password := hashPassword "new" }, true⟩],
        CookieAction.untouched, 1⟩) :=
  ⟨updatePassword_cases.1 [updateWitUser] 9 none (some "new") (by decide),
    updatePassword_cases.2.1 [updateWitUser] 9 (some "old") (by decide),
    updatePassword_cases.2.2.1 [updateWitUser] 9 (some "bad") (some "new")
      updateWitUser (by decide) (by decide) (by decide) (by decide) (by decide),
    updatePassword_cases.2.2.2 [updateWitUser] 9 (some "old") (some "new")
      updateWitUser (by decide) (by decide) (by decide) (by decide) (by decide)⟩

end AuthController
